import Mathlib

/-
Verification of the WatchTogether synchronization core (src/src/App.jsx).

Shallow embedding conventions:
- JS numbers (epoch milliseconds, playback positions in seconds) are modelled
  as exact rationals (ℚ); machine floating point is not modelled.
- The browser URL parser (`new URL(url)`) is an external platform primitive;
  its observable output (hostname, pathname, the "v" search parameter) is
  modelled as the structure `JsUrl`, and a parse failure (the try/catch in
  `extractYouTubeId`) as `none`.
- Imperative handlers are modelled as pure functions from their inputs and
  the relevant component state to an updated state plus a list of emitted
  commands / notifications / store effects, in program order.
-/

namespace Watch

/- String helpers embedding the source's regex / `includes` idioms.
   The regex `/youtu\.be\//` (resp. `/youtube\.com\/.*/`) is an unanchored
   literal-substring test for "youtu.be/" (resp. "youtube.com/"). -/

def startsWith : List Char → List Char → Bool
  | _, [] => true
  | [], _ :: _ => false
  | a :: as, p :: ps => a == p && startsWith as ps

def containsChars : List Char → List Char → Bool
  | [], pat => startsWith [] pat
  | a :: rest, pat => startsWith (a :: rest) pat || containsChars rest pat

def strContains (s pat : String) : Bool :=
  containsChars s.toList pat.toList

/-- `isYouTubeUrl` from App.jsx line 55: regex tests on the raw URL string. -/
def isYouTubeUrl (u : String) : Bool :=
  strContains u "youtu.be/" || strContains u "youtube.com/"

/-- JS `String.prototype.trim`: strip leading and trailing whitespace. -/
def jsTrim (s : String) : String :=
  String.mk (((s.toList.dropWhile Char.isWhitespace).reverse.dropWhile
    Char.isWhitespace).reverse)

/-- Output of the browser's `new URL(url)` relevant to `extractYouTubeId`:
hostname, pathname, and `searchParams.get("v")` (`none` when absent). -/
structure JsUrl where
  hostname : String
  pathname : String
  searchV : Option String
deriving DecidableEq

/-- Word characters of the regex class `[\w-]`. -/
def isWordChar (c : Char) : Bool := c.isAlphanum || c == '_' || c == '-'

/-- Unanchored match of `/\/embed\/([\w-]+)/` over a pathname: find an
occurrence of "/embed/" followed by at least one word character and return
that maximal word-character run (the capture group). -/
def embedScan : List Char → Option String
  | [] => none
  | c :: rest =>
    if startsWith (c :: rest) "/embed/".toList then
      match (List.drop 7 (c :: rest)).takeWhile isWordChar with
      | [] => embedScan rest
      | run => some (String.mk run)
    else embedScan rest

/-- `extractYouTubeId` from App.jsx lines 58-69.  The argument is the result
of `new URL(url)` (`none` when the URL constructor threw).  JS truthiness of
`searchParams.get("v")` means an empty string falls through to the embed
match, exactly as `if (u.searchParams.get("v"))` does. -/
def extractYouTubeId (parsed : Option JsUrl) : Option String :=
  match parsed with
  | none => none
  | some u =>
    if u.hostname == "youtu.be" then some (u.pathname.drop 1)
    else if strContains u.hostname "youtube.com" then
      match u.searchV with
      | some v => if v ≠ "" then some v else embedScan u.pathname.toList
      | none => embedScan u.pathname.toList
    else none

/-- JS truthiness of a string-or-null value (`null` and `""` are falsy). -/
def jsTruthy : Option String → Bool
  | none => false
  | some s => s ≠ ""

/-- Which player component the render step constructs (App.jsx lines 581-598:
`usingYT && ytId ? <YouTubePlayer videoId={ytId}/> : <Html5Player url={videoUrl}/>`). -/
inductive PlayerChoice
  | youtube (videoId : String)
  | html5 (url : String)
deriving DecidableEq

def playerFor (videoUrl : String) (parsed : Option JsUrl) : PlayerChoice :=
  let usingYT := isYouTubeUrl videoUrl
  let ytId := if usingYT then extractYouTubeId parsed else none
  if usingYT && jsTruthy ytId then PlayerChoice.youtube (ytId.getD "")
  else PlayerChoice.html5 videoUrl

/- ---------------- Playback data model ---------------- -/

/-- JS `Math.abs`. -/
def jsAbs (x : ℚ) : ℚ := if x < 0 then -x else x

/-- App.jsx line 71. -/
def DRIFT_THRESHOLD : ℚ := 6/10

/-- The playback record stored at `rooms/{id}/playback`
(fields isPlaying, currentTime, updatedAt, by). -/
structure PlaybackState where
  isPlaying : Bool
  currentTime : ℚ
  updatedAt : ℚ
  by_ : String
deriving DecidableEq

/-- The observable controller surface used by `syncToPlayer`:
`getCurrentTime()` and `isPlaying()`.  Neither backend's `seek` changes the
play/pause state, so one snapshot serves both reads. -/
structure Ctrl where
  currentTime : ℚ
  playing : Bool
deriving DecidableEq

inductive Cmd
  | seek (t : ℚ)
  | play
  | pause
deriving DecidableEq

/-- `syncToPlayer` from App.jsx lines 456-474, as the ordered list of
controller commands it issues.  The early return
`if (!usingYT && !viewerReady) return;` is the HTML5 autoplay gate. -/
def syncCommands (usingYT viewerReady : Bool) (now : ℚ) (p : PlaybackState) (c : Ctrl) :
    List Cmd :=
  if !usingYT && !viewerReady then []
  else
    let elapsed := (now - p.updatedAt) / 1000
    let should := p.currentTime + (if p.isPlaying then elapsed else 0)
    let drift := jsAbs (should - c.currentTime)
    (if DRIFT_THRESHOLD < drift then [Cmd.seek should] else []) ++
    (if p.isPlaying && !c.playing then [Cmd.play] else []) ++
    (if !p.isPlaying && c.playing then [Cmd.pause] else [])

/- ---------------- Backend suppression model ---------------- -/

inductive Notice
  | localPlay
  | localPause
  | localSeek (t : ℚ)
deriving DecidableEq

/-- Html5Player internal state: the suppression flag plus the media element's
observable fields (App.jsx lines 80-82). -/
structure H5 where
  suppress : Bool
  currentTime : ℚ
  paused : Bool
  ended : Bool
deriving DecidableEq

/-- The `play`/`pause`/`seeked` DOM listeners (App.jsx lines 121-129): each
notifies the parent only while the suppression flag is clear. -/
def h5HandlePlay (s : H5) : List Notice :=
  if s.suppress then [] else [Notice.localPlay]

def h5HandlePause (s : H5) : List Notice :=
  if s.suppress then [] else [Notice.localPause]

def h5HandleSeeked (s : H5) : List Notice :=
  if s.suppress then [] else [Notice.localSeek s.currentTime]

/-- `seek(sec)` from App.jsx lines 101-105: set the flag, move the playback
head (which makes the element fire `seeked`), and schedule the flag clear for
the next scheduling tick (`setTimeout(..., 0)`), modelled by `h5Tick`. -/
def h5Seek (sec : ℚ) (s : H5) : H5 × List Notice :=
  let s1 : H5 := { s with suppress := true, currentTime := sec }
  (s1, h5HandleSeeked s1)

def h5Tick (s : H5) : H5 := { s with suppress := false }

/-- YouTubePlayer internal state (App.jsx lines 207-210). -/
structure YTS where
  ready : Bool
  suppress : Bool
  currentTime : ℚ
  playerState : Int
deriving DecidableEq

/-- `onStateChange` from App.jsx lines 255-259: ignores everything while not
ready or suppressed, reports play for widget state 1 and pause for state 2,
and nothing else. -/
def ytOnStateChange (y : YTS) (d : Int) : List Notice :=
  if !y.ready || y.suppress then []
  else if d == 1 then [Notice.localPlay]
  else if d == 2 then [Notice.localPause]
  else []

/-- `seek(s)` from App.jsx lines 228-234: no-op until ready; otherwise set the
flag, move the head, and schedule the clear for the next tick (`ytTick`). -/
def ytSeek (sec : ℚ) (y : YTS) : YTS × List Notice :=
  if y.ready then ({ y with suppress := true, currentTime := sec }, [])
  else (y, [])

def ytTick (y : YTS) : YTS := { y with suppress := false }

def hasSeekNotice : List Notice → Bool
  | [] => false
  | Notice.localSeek _ :: _ => true
  | _ :: rest => hasSeekNotice rest

/-- Publishes resulting from routing a list of local-event notifications into
`broadcastPlayback` (each notification triggers exactly one broadcast attempt,
which writes only when the App.jsx line 444 guard passes). -/
def publishCount (canControl : Bool) (roomId : String) (hasPlayer : Bool)
    (ns : List Notice) : Nat :=
  if canControl && !(roomId == "") && hasPlayer then ns.length else 0

/- ---------------- Authority model ---------------- -/

/-- The room record stored at `rooms/{id}` (App.jsx lines 403-408). -/
structure Room where
  videoUrl : String
  hostId : String
  allowEveryoneControl : Bool
  createdAt : ℚ
deriving DecidableEq

/-- The derived control authority: `d.hostId === myId || !!d.allowEveryoneControl`. -/
def canControlOf (room : Room) (pid : String) : Bool :=
  room.hostId == pid || room.allowEveryoneControl

structure AuthState where
  isHost : Bool
  allowEveryone : Bool
  canControl : Bool
deriving DecidableEq

/-- The `onValue(roomRef)` live-subscription handler (App.jsx lines 342-348):
a null snapshot leaves state untouched; otherwise all three derived fields are
recomputed from the delivered room record. -/
def onRoomValue (myId : String) (snap : Option Room) (st : AuthState) : AuthState :=
  match snap with
  | none => st
  | some d =>
    { isHost := d.hostId == myId
      allowEveryone := d.allowEveryoneControl
      canControl := d.hostId == myId || d.allowEveryoneControl }

/- ---------------- App-level control handlers ---------------- -/

structure AppCtx where
  canControl : Bool
  roomId : String
  player : Option Ctrl
  myId : String
deriving DecidableEq

inductive Eff
  | publishPlayback (roomId : String) (p : PlaybackState)
  | seekLocal (t : ℚ)
deriving DecidableEq

/-- `broadcastPlayback` from App.jsx lines 443-453: the single publish funnel;
returns without writing unless canControl, a room id, and a player are present. -/
def broadcastPlayback (now : ℚ) (ctx : AppCtx) : List Eff :=
  if !ctx.canControl || ctx.roomId == "" then []
  else
    match ctx.player with
    | none => []
    | some c => [Eff.publishPlayback ctx.roomId ⟨c.playing, c.currentTime, now, ctx.myId⟩]

/-- App.jsx lines 477-480. -/
def handlePlay (now : ℚ) (ctx : AppCtx) : List Eff :=
  if !ctx.canControl then [] else broadcastPlayback now ctx

/-- App.jsx lines 481-484. -/
def handlePause (now : ℚ) (ctx : AppCtx) : List Eff :=
  if !ctx.canControl then [] else broadcastPlayback now ctx

/-- App.jsx lines 485-490: gate, clamp the target at 0, seek locally, then
broadcast (the broadcast reads the already-moved playback head). -/
def handleSeekDelta (d now : ℚ) (ctx : AppCtx) : List Eff :=
  if !ctx.canControl then []
  else
    match ctx.player with
    | none => []
    | some c =>
      let t := max 0 (c.currentTime + d)
      Eff.seekLocal t ::
        broadcastPlayback now { ctx with player := some { c with currentTime := t } }

/- ---------------- Heartbeat ---------------- -/

/-- Dependencies of the heartbeat effect (App.jsx lines 384-394). -/
structure HbDeps where
  roomId : String
  canControl : Bool
  isPlaying : Bool
  videoUrl : String
  viewerReady : Bool
deriving DecidableEq

/-- The heartbeat effect body: the interval (period in ms) it installs, if
any.  `if (!roomId) return;` then
`if (canControl && isPlaying && (usingYT || viewerReady)) setInterval(..., 3000)`. -/
def heartbeatTimer (d : HbDeps) : Option ℚ :=
  if d.roomId == "" then none
  else if d.canControl && d.isPlaying && (isYouTubeUrl d.videoUrl || d.viewerReady) then
    some 3000
  else none

def hbDefault : HbDeps := ⟨"", false, false, "", false⟩

/-- Discretized run of the effect: entry `i` of the trace is the dependency
state during the i-th timer period (the effect is torn down and re-installed
on every dependency change); a heartbeat fires in period `i` exactly when the
timer is installed for that period's state. -/
def hbFires (tr : List HbDeps) : List Nat :=
  (List.range tr.length).filter fun i => (heartbeatTimer (tr.getD i hbDefault)).isSome

/- ---------------- Playback subscription and the viewer gate ---------------- -/

structure PlaybackUiState where
  isPlaying : Bool
  remoteTime : ℚ
  lastUpdateMs : ℚ
  viewerReady : Bool
deriving DecidableEq

/-- The `onValue(rooms/{id}/playback)` handler (App.jsx lines 350-357): null
snapshots are ignored; otherwise the remote record is stored into local state
and then handed to `syncToPlayer` (which itself returns immediately when
there is no player, and applies the HTML5 viewer gate). -/
def onPlaybackValue (usingYT : Bool) (now : ℚ) (ctrl : Option Ctrl)
    (snap : Option PlaybackState) (st : PlaybackUiState) : PlaybackUiState × List Cmd :=
  match snap with
  | none => (st, [])
  | some p =>
    ({ st with isPlaying := p.isPlaying, remoteTime := p.currentTime,
               lastUpdateMs := p.updatedAt },
     match ctrl with
     | none => []
     | some c => syncCommands usingYT st.viewerReady now p c)

/-- App.jsx line 330: `setViewerReady(false)` on joining a room / URL change. -/
def joinRoomReset (st : PlaybackUiState) : PlaybackUiState :=
  { st with viewerReady := false }

/-- App.jsx line 596: `onUserReady={() => setViewerReady(true)}` after the
one explicit start gesture. -/
def onUserReady (st : PlaybackUiState) : PlaybackUiState :=
  { st with viewerReady := true }

/- ---------------- Room creation ---------------- -/

inductive CreateOp
  | writeRoom (id : String) (room : Room)
  | writePlayback (id : String) (p : PlaybackState)
  | enterRoom (id : String)
deriving DecidableEq

/-- `handleCreateRoom` from App.jsx lines 398-424 as its ordered effect trace:
write the room record, await, write the initial playback record, await, then
transition into the room (`setRoomId(id)` and the URL rewrite).  `now1`/`now2`
are the two `Date.now()` calls; `newId` the generated `makeId(10)`. -/
def handleCreateRoom (createUrl myId newId : String) (now1 now2 : ℚ) : List CreateOp :=
  let url := jsTrim createUrl
  if url == "" then []
  else
    [ CreateOp.writeRoom newId ⟨url, myId, false, now1⟩,
      CreateOp.writePlayback newId ⟨false, 0, now2, myId⟩,
      CreateOp.enterRoom newId ]

/-- The backing store's view of the new room: what each record path holds. -/
structure Store where
  roomRec : Option Room
  playbackRec : Option PlaybackState
deriving DecidableEq

def applyCreateOp (st : Store) : CreateOp → Store
  | CreateOp.writeRoom _ r => { st with roomRec := some r }
  | CreateOp.writePlayback _ p => { st with playbackRec := some p }
  | CreateOp.enterRoom _ => st

def applyCreateOps (ops : List CreateOp) (st : Store) : Store :=
  ops.foldl applyCreateOp st

/- ---------------- Permission toggle ---------------- -/

/-- `toggleEveryoneControl` from App.jsx lines 496-501, as the room record's
new value in the store: a patch-style `update` of the single field
`allowEveryoneControl` (to the negation of the local `allowEveryone` state),
guarded by `if (!isHost || !roomId) return`. -/
def toggleEveryoneControl (isHost : Bool) (roomId : String) (allowEveryone : Bool)
    (room : Room) : Room :=
  if !isHost || roomId == "" then room
  else { room with allowEveryoneControl := !allowEveryone }

/- ================== Theorems ================== -/

/-- C1: whenever the reconciler runs (the HTML5 autoplay gate of the
`syncToPlayer` early return is open, i.e. the source is a widget source or the
viewer has interacted), `syncToPlayer` issues a seek exactly to
`expected = positionSeconds + (isPlaying ? (now - publishedAt)/1000 : 0)` and
exactly when `|expected - getCurrentTime()| > 0.6` (strictly), issues play
exactly when the remote state is playing and the controller is not, and issues
pause exactly when the remote state is paused and the controller is playing. -/
theorem syncToPlayer_reconciliation (usingYT viewerReady : Bool) (now : ℚ)
    (p : PlaybackState) (c : Ctrl) (hgate : usingYT = true ∨ viewerReady = true) :
    (∀ t, Cmd.seek t ∈ syncCommands usingYT viewerReady now p c ↔
      (t = p.currentTime + (if p.isPlaying then (now - p.updatedAt) / 1000 else 0) ∧
        DRIFT_THRESHOLD <
          jsAbs (p.currentTime + (if p.isPlaying then (now - p.updatedAt) / 1000 else 0)
            - c.currentTime))) ∧
    (Cmd.play ∈ syncCommands usingYT viewerReady now p c ↔
      (p.isPlaying = true ∧ c.playing = false)) ∧
    (Cmd.pause ∈ syncCommands usingYT viewerReady now p c ↔
      (p.isPlaying = false ∧ c.playing = true)) := by
  have hg : (!usingYT && !viewerReady) = false := by
    rcases hgate with h | h <;> simp [h]
  unfold syncCommands
  rw [hg]
  simp only [Bool.false_eq_true, if_false]
  refine ⟨fun t => ?_, ?_, ?_⟩ <;>
    · split_ifs with h1 h2 h3 <;> simp_all [List.mem_append, and_comm]

/-- C1 witness: the spec's own deadband example — remote
`{isPlaying:true, position:100, publishedAt:T}` observed at `T+2000ms` with
local position 99 gives expected 102, drift 3 > 0.6, so a seek to 102 is
issued. -/
theorem syncToPlayer_reconciliation_witness :
    Cmd.seek 102 ∈ syncCommands true false 2000 ⟨true, 100, 0, "h"⟩ ⟨99, true⟩ :=
  ((syncToPlayer_reconciliation true false 2000 ⟨true, 100, 0, "h"⟩ ⟨99, true⟩
    (Or.inl rfl)).1 102).mpr (by norm_num [jsAbs, DRIFT_THRESHOLD])

/-- C2: on either backend, `seek` sets the suppression flag before moving the
playback head and the flag is cleared on the next scheduling tick; while the
flag is set none of the local-event listeners notify; hence a seek emits no
notification at all and routes zero publishes into `broadcastPlayback` — a
drift-reconciler seek never by itself causes a PlaybackState publish. -/
theorem seek_suppression (sec : ℚ) (s : H5) (y : YTS) (d : Int)
    (cc : Bool) (rid : String) (hp : Bool) :
    ((h5Seek sec s).1.suppress = true ∧ (h5Seek sec s).1.currentTime = sec) ∧
    (h5Seek sec s).2 = [] ∧
    (h5Tick (h5Seek sec s).1).suppress = false ∧
    (s.suppress = true → h5HandlePlay s = [] ∧ h5HandlePause s = [] ∧
      h5HandleSeeked s = []) ∧
    (y.ready = true →
      (ytSeek sec y).1.suppress = true ∧
      ytOnStateChange (ytSeek sec y).1 d = [] ∧
      (ytTick (ytSeek sec y).1).suppress = false) ∧
    publishCount cc rid hp (h5Seek sec s).2 = 0 := by
  refine ⟨⟨rfl, rfl⟩, ?_, rfl, ?_, ?_, ?_⟩
  · simp [h5Seek, h5HandleSeeked]
  · intro h; simp [h5HandlePlay, h5HandlePause, h5HandleSeeked, h]
  · intro h; simp [ytSeek, ytOnStateChange, ytTick, h]
  · simp [h5Seek, h5HandleSeeked, publishCount]

/-- C2 witness: with the flag set the HTML5 play listener stays silent, and a
widget state change arriving while a widget seek is in flight is swallowed. -/
theorem seek_suppression_witness :
    h5HandlePlay ⟨true, 7, true, false⟩ = [] ∧
    ytOnStateChange (ytSeek 5 ⟨true, false, 0, 1⟩).1 1 = [] :=
  ⟨((seek_suppression 5 ⟨true, 7, true, false⟩ ⟨true, false, 0, 1⟩ 1 true "r" true).2.2.2.1
      rfl).1,
   ((seek_suppression 5 ⟨true, 7, true, false⟩ ⟨true, false, 0, 1⟩ 1 true "r" true).2.2.2.2.1
      rfl).2.1⟩

/-- C3: the live room subscription handler recomputes the derived authority on
every delivered room record, and the value it stores satisfies
`canControl = true` iff the participant is the host or everyone-control is on. -/
theorem canControl_authority (room : Room) (pid : String) (st : AuthState) :
    (onRoomValue pid (some room) st).canControl = canControlOf room pid ∧
    ((onRoomValue pid (some room) st).canControl = true ↔
      (pid = room.hostId ∨ room.allowEveryoneControl = true)) := by
  constructor
  · rfl
  · show (room.hostId == pid || room.allowEveryoneControl) = true ↔ _
    simp [Bool.or_eq_true, beq_iff_eq, @eq_comm _ room.hostId pid]

/-- C3 witness: the host of a room with everyone-control off can control. -/
theorem canControl_authority_witness :
    (onRoomValue "u1" (some ⟨"v", "u1", false, 0⟩) ⟨false, false, false⟩).canControl = true :=
  (canControl_authority ⟨"v", "u1", false, 0⟩ "u1" ⟨false, false, false⟩).2.mpr (Or.inl rfl)

/-- C4: with `canControl = false` every control-gesture path is a no-op that
publishes nothing — `handlePlay`, `handlePause` and `handleSeekDelta` emit no
effect (not even the local seek), and the shared funnel `broadcastPlayback`
itself writes nothing. -/
theorem no_publish_without_authority (now d : ℚ) (ctx : AppCtx)
    (h : ctx.canControl = false) :
    handlePlay now ctx = [] ∧ handlePause now ctx = [] ∧
    handleSeekDelta d now ctx = [] ∧ broadcastPlayback now ctx = [] := by
  obtain ⟨cc, rid, pl, mid⟩ := ctx
  simp only at h
  subst h
  simp [handlePlay, handlePause, handleSeekDelta, broadcastPlayback]

/-- C4 witness: a non-controller in a room with a live player publishes
nothing through any of the four paths. -/
theorem no_publish_without_authority_witness :
    handlePlay 0 ⟨false, "r1", some ⟨3, true⟩, "me"⟩ = [] ∧
    handlePause 0 ⟨false, "r1", some ⟨3, true⟩, "me"⟩ = [] ∧
    handleSeekDelta 10 0 ⟨false, "r1", some ⟨3, true⟩, "me"⟩ = [] ∧
    broadcastPlayback 0 ⟨false, "r1", some ⟨3, true⟩, "me"⟩ = [] :=
  no_publish_without_authority 0 10 ⟨false, "r1", some ⟨3, true⟩, "me"⟩ rfl

/-- C5: the heartbeat effect installs its 3-second interval exactly when in a
room with `canControl` and `isPlaying` and (for native-media sources) the
viewer gate passed; over any discretized run, no heartbeat fires in a period
whose dependency state has left the room, paused, or lost authority — the
interval is torn down with its conditions. -/
theorem heartbeat_conditions (dep : HbDeps) (tr : List HbDeps) (i : Nat) :
    (heartbeatTimer dep = some 3000 ↔
      (dep.roomId ≠ "" ∧ dep.canControl = true ∧ dep.isPlaying = true ∧
        (isYouTubeUrl dep.videoUrl = true ∨ dep.viewerReady = true))) ∧
    ((tr.getD i hbDefault).roomId = "" → i ∉ hbFires tr) ∧
    ((tr.getD i hbDefault).isPlaying = false → i ∉ hbFires tr) ∧
    ((tr.getD i hbDefault).canControl = false → i ∉ hbFires tr) := by
  refine ⟨?_, ?_, ?_, ?_⟩
  · unfold heartbeatTimer
    split_ifs with h1 h2 <;> simp_all
  all_goals
    intro h hmem
  all_goals
    rw [hbFires, List.mem_filter] at hmem
    obtain ⟨-, h2⟩ := hmem
    unfold heartbeatTimer at h2
    rw [h] at h2
    simp at h2

/-- C5 witness: a playing widget-source controller heartbeats with period
3000ms, and no heartbeat fires in a period after the room is left. -/
theorem heartbeat_conditions_witness :
    heartbeatTimer ⟨"r1", true, true, "https://youtu.be/a", false⟩ = some 3000 ∧
    0 ∉ hbFires [⟨"", true, true, "https://youtu.be/a", true⟩] :=
  ⟨(heartbeat_conditions ⟨"r1", true, true, "https://youtu.be/a", false⟩ [] 0).1.mpr
      ⟨by decide, rfl, rfl, Or.inl (by decide)⟩,
   (heartbeat_conditions hbDefault [⟨"", true, true, "https://youtu.be/a", true⟩] 0).2.1 rfl⟩

/-- C6 counterexample: `https://www.youtube.com/channel/abc` is classified as
a widget URL, id extraction fails, yet the render step constructs the HTML5
player for that URL — the code falls back to the native-media player instead
of constructing no player and reporting an unplayable-source error. -/
theorem unplayable_source_counterexample :
    isYouTubeUrl "https://www.youtube.com/channel/abc" = true ∧
    extractYouTubeId (some ⟨"www.youtube.com", "/channel/abc", none⟩) = none ∧
    playerFor "https://www.youtube.com/channel/abc"
        (some ⟨"www.youtube.com", "/channel/abc", none⟩) =
      PlayerChoice.html5 "https://www.youtube.com/channel/abc" := by
  refine ⟨by decide, by decide, by decide⟩

/-- C6 (amended): id extraction tries, first match winning, the youtu.be path
segment, then a non-empty `v` query parameter, then an `/embed/<id>` path
segment, else yields null; when extraction yields a falsy id for a
widget-classified URL, the app constructs the HTML5 player for the same URL
(no dedicated unplayable-source error). -/
theorem extract_order_and_fallback (u : JsUrl) (v videoUrl : String)
    (parsed : Option JsUrl) :
    (u.hostname = "youtu.be" → extractYouTubeId (some u) = some (u.pathname.drop 1)) ∧
    (u.hostname ≠ "youtu.be" → strContains u.hostname "youtube.com" = true →
      u.searchV = some v → v ≠ "" → extractYouTubeId (some u) = some v) ∧
    (u.hostname ≠ "youtu.be" → strContains u.hostname "youtube.com" = true →
      u.searchV = none → extractYouTubeId (some u) = embedScan u.pathname.toList) ∧
    (u.hostname ≠ "youtu.be" → strContains u.hostname "youtube.com" = false →
      extractYouTubeId (some u) = none) ∧
    (jsTruthy (extractYouTubeId parsed) = false → isYouTubeUrl videoUrl = true →
      playerFor videoUrl parsed = PlayerChoice.html5 videoUrl) := by
  refine ⟨?_, ?_, ?_, ?_, ?_⟩
  · intro h; simp [extractYouTubeId, h]
  · intro h1 h2 h3 h4; simp [extractYouTubeId, h1, h2, h3, h4]
  · intro h1 h2 h3; simp [extractYouTubeId, h1, h2, h3]
  · intro h1 h2; simp [extractYouTubeId, h1, h2]
  · intro h1 h2; simp [playerFor, h1, h2]

/-- C6 witness: a short-link URL takes the path-segment branch — the `v`
parameter present alongside is ignored. -/
theorem extract_order_witness :
    extractYouTubeId (some ⟨"youtu.be", "/abc", some "zzz"⟩) = some "abc" := by
  have h := (extract_order_and_fallback ⟨"youtu.be", "/abc", some "zzz"⟩ "zzz" "" none).1 rfl
  simpa using h

/-- C7: for a native-media source with the viewer gate closed, an incoming
remote record is stored into local state (isPlaying, remoteTime, lastUpdateMs)
but no controller command is issued; once the gate is open the handler issues
the full ungated reconciliation; joining a room resets the gate and the user
gesture opens it. -/
theorem viewerReady_gate (now : ℚ) (p : PlaybackState) (c : Ctrl)
    (st : PlaybackUiState) :
    (st.viewerReady = false →
      (onPlaybackValue false now (some c) (some p) st).1.isPlaying = p.isPlaying ∧
      (onPlaybackValue false now (some c) (some p) st).1.remoteTime = p.currentTime ∧
      (onPlaybackValue false now (some c) (some p) st).1.lastUpdateMs = p.updatedAt ∧
      (onPlaybackValue false now (some c) (some p) st).2 = []) ∧
    (st.viewerReady = true →
      (onPlaybackValue false now (some c) (some p) st).2 = syncCommands true true now p c) ∧
    (joinRoomReset st).viewerReady = false ∧
    (onUserReady st).viewerReady = true := by
  refine ⟨?_, ?_, rfl, rfl⟩
  · intro h
    refine ⟨rfl, rfl, rfl, ?_⟩
    simp [onPlaybackValue, syncCommands, h]
  · intro h
    simp [onPlaybackValue, syncCommands, h]

/-- C7 witness: before the gesture, a playing remote record applied to a
paused native player issues no command at all. -/
theorem viewerReady_gate_witness :
    (onPlaybackValue false 9 (some ⟨0, false⟩) (some ⟨true, 50, 0, "h"⟩)
      ⟨false, 0, 0, false⟩).2 = [] :=
  ((viewerReady_gate 9 ⟨true, 50, 0, "h"⟩ ⟨0, false⟩ ⟨false, 0, 0, false⟩).1 rfl).2.2.2

/-- C8 counterexample: after the first of the two creation writes the store
holds the Room record with no PlaybackState — the two writes are sequential,
not one atomic unit, so a read between them observes a Room without playback. -/
theorem createRoom_not_atomic_counterexample :
    (applyCreateOps
      ((handleCreateRoom "https://example.com/v.mp4" "host1" "room1" 5 6).take 1)
      ⟨none, none⟩).roomRec =
        some ⟨"https://example.com/v.mp4", "host1", false, 5⟩ ∧
    (applyCreateOps
      ((handleCreateRoom "https://example.com/v.mp4" "host1" "room1" 5 6).take 1)
      ⟨none, none⟩).playbackRec = none := by
  constructor <;> rfl

/-- C8 (amended): for a non-blank URL, room creation emits exactly the Room
write (videoUrl = trimmed URL, hostId = creator, allowEveryoneControl = false,
createdAt), then the initial PlaybackState write (isPlaying = false, position
0), and only then the transition into the room; after the two writes the store
holds both records. -/
theorem createRoom_writes_before_transition (createUrl myId newId : String)
    (n1 n2 : ℚ) (h : jsTrim createUrl ≠ "") :
    handleCreateRoom createUrl myId newId n1 n2 =
      [ CreateOp.writeRoom newId ⟨jsTrim createUrl, myId, false, n1⟩,
        CreateOp.writePlayback newId ⟨false, 0, n2, myId⟩,
        CreateOp.enterRoom newId ] ∧
    (applyCreateOps ((handleCreateRoom createUrl myId newId n1 n2).take 2)
      ⟨none, none⟩).roomRec = some ⟨jsTrim createUrl, myId, false, n1⟩ ∧
    (applyCreateOps ((handleCreateRoom createUrl myId newId n1 n2).take 2)
      ⟨none, none⟩).playbackRec = some ⟨false, 0, n2, myId⟩ := by
  have hb : (jsTrim createUrl == "") = false := by
    simpa using h
  refine ⟨?_, ?_, ?_⟩ <;>
    simp [handleCreateRoom, applyCreateOps, applyCreateOp, hb]

/-- C8 witness: creating a room for URL "u" leaves the initial paused
position-0 playback record in the store once both writes have applied. -/
theorem createRoom_writes_before_transition_witness :
    (applyCreateOps ((handleCreateRoom "u" "h1" "r1" 0 1).take 2)
      ⟨none, none⟩).playbackRec = some ⟨false, 0, 1, "h1"⟩ :=
  (createRoom_writes_before_transition "u" "h1" "r1" 0 1 (by decide)).2.2

/-- C9: toggling everyone-control is a no-op for non-hosts; when it runs it
flips exactly the `allowEveryoneControl` field, leaving videoUrl, hostId and
createdAt of the Room record unchanged in every case. -/
theorem toggle_control_host_only (isHost : Bool) (roomId : String) (ae : Bool)
    (room : Room) :
    (isHost = false → toggleEveryoneControl isHost roomId ae room = room) ∧
    (isHost = true → roomId ≠ "" →
      toggleEveryoneControl isHost roomId ae room =
        { room with allowEveryoneControl := !ae }) ∧
    (toggleEveryoneControl isHost roomId ae room).videoUrl = room.videoUrl ∧
    (toggleEveryoneControl isHost roomId ae room).hostId = room.hostId ∧
    (toggleEveryoneControl isHost roomId ae room).createdAt = room.createdAt := by
  refine ⟨?_, ?_, ?_, ?_, ?_⟩
  · intro h; simp [toggleEveryoneControl, h]
  · intro h1 h2; simp [toggleEveryoneControl, h1, h2]
  all_goals
    unfold toggleEveryoneControl
    split_ifs <;> rfl

/-- C9 witness: a non-host toggle leaves the room record untouched. -/
theorem toggle_control_host_only_witness :
    toggleEveryoneControl false "r1" false ⟨"v", "h1", false, 0⟩ = ⟨"v", "h1", false, 0⟩ :=
  (toggle_control_host_only false "r1" false ⟨"v", "h1", false, 0⟩).1 rfl

/-- C10: the widget backend never emits a local-seek notification: its state
change handler reports only play (state 1) or pause (state 2) or nothing, and
its `seek` emits nothing — so onLocalSeek can only originate from the
native-media backend. -/
theorem yt_widget_never_reports_seek (y : YTS) (d : Int) (sec : ℚ) :
    hasSeekNotice (ytOnStateChange y d) = false ∧
    (ytSeek sec y).2 = [] ∧
    (ytOnStateChange y d = [] ∨ ytOnStateChange y d = [Notice.localPlay] ∨
      ytOnStateChange y d = [Notice.localPause]) := by
  unfold ytOnStateChange ytSeek
  split_ifs <;> simp [hasSeekNotice]

end Watch
